import Mathlib

/-!
Shallow embedding of the packet-building library `pylayers.py`.

The library composes protocol layers (IPv4 header, UDP header, raw payload)
into one byte buffer.  Pure Python functions become Lean functions; in-place
mutation of layer objects during the composer's backward pass becomes explicit
state passing (the pass returns the updated layer list); Python exceptions
become `Except` error results; Python `bytes` values become `List Nat`
(each entry a byte value).
-/

/-- Error values the embedded code can raise.  The source has exactly two
failure sources: `socket.inet_aton` raises `OSError` on a malformed address
string, and `struct.pack` raises `struct.error` when a value does not fit the
requested fixed-width field. -/
inductive PyError where
  | oserror
  | structError
deriving DecidableEq, Repr

/-- Decidable equality for `Except` results, so concrete runs can be checked
by `decide`. -/
instance {ε α : Type} [DecidableEq ε] [DecidableEq α] : DecidableEq (Except ε α) :=
  fun x y =>
    match x, y with
    | Except.ok a, Except.ok b =>
      if h : a = b then Decidable.isTrue (congrArg Except.ok h)
      else Decidable.isFalse (fun hc => h (Except.ok.inj hc))
    | Except.error a, Except.error b =>
      if h : a = b then Decidable.isTrue (congrArg Except.error h)
      else Decidable.isFalse (fun hc => h (Except.error.inj hc))
    | Except.ok _, Except.error _ => Decidable.isFalse (fun hc => Except.noConfusion hc)
    | Except.error _, Except.ok _ => Decidable.isFalse (fun hc => Except.noConfusion hc)

/-- Source constant `IPV4_EVIL_BIT = 1 << 2`. -/
def IPV4_EVIL_BIT : Nat := 1 <<< 2

/-- Source constant `IPV4_DONT_FRAGMENT = 1 << 1`. -/
def IPV4_DONT_FRAGMENT : Nat := 1 <<< 1

/-- Source constant `IPV4_MORE_FRAGMENTS = 1 << 0`. -/
def IPV4_MORE_FRAGMENTS : Nat := 1 <<< 0

/-- Numeric value of a decimal digit character, `none` for a non-digit. -/
def digitVal (c : Char) : Option Nat :=
  if ('0' ≤ c ∧ c ≤ '9') then some (c.toNat - 48) else none

/-- Accumulate a decimal number over a character list; `none` on any
non-digit. -/
def parseDigits : Option Nat → List Char → Option Nat
  | acc, [] => acc
  | acc, c :: rest =>
    match acc, digitVal c with
    | some n, some d => parseDigits (some (10 * n + d)) rest
    | _, _ => none

/-- Parse one dotted-quad component: a non-empty run of decimal digits. -/
def parsePart : List Char → Option Nat
  | [] => none
  | l => parseDigits (some 0) l

/-- Split a character list on the dot separators (. characters). -/
def splitDots : List Char → List (List Char)
  | [] => [[]]
  | c :: rest =>
    match splitDots rest with
    | [] => [[]]
    | g :: gs => if c = '.' then [] :: g :: gs else (c :: g) :: gs

/-- Parse every component, `none` if any fails. -/
def parseParts : List (List Char) → Option (List Nat)
  | [] => some []
  | p :: rest =>
    match parsePart p, parseParts rest with
    | some n, some ns => some (n :: ns)
    | _, _ => none

/-- Model of the C library function `socket.inet_aton`, restricted to the
dotted-quad decimal form `a.b.c.d` that is the only form this repository ever
passes to it: four decimal components, each at most 255, yielding the four
network-order bytes.  (The C function additionally accepts 1- to 3-component
and octal/hex forms; no caller here uses them.)  `none` models the `OSError`
the C function raises on a string it cannot parse, e.g. an octet above 255. -/
def inet_aton (s : String) : Option (List Nat) :=
  match parseParts (splitDots s.data) with
  | some [a, b, c, d] =>
    if a ≤ 255 ∧ b ≤ 255 ∧ c ≤ 255 ∧ d ≤ 255 then some [a, b, c, d] else none
  | _ => none

/-- Keyword options accepted by `IPv4Layer.__init__` via `opts.get`, with the
source's default values. -/
structure IPv4Opts where
  total_length : Nat := 0
  id : Nat := 0
  flags : Nat := 0
  fragment_offset : Nat := 0
  ttl : Nat := 64
  checksum : Nat := 0
deriving DecidableEq, Repr

/-- Fields of an `IPv4Layer` object, in the order `__init__` assigns them. -/
structure IPv4Layer where
  verihl : Nat
  dscp_ecn : Nat
  total_length : Nat
  id : Nat
  flags : Nat
  fragment_offset : Nat
  flags_fragment_offset : Nat
  ttl : Nat
  protocol : Nat
  checksum : Nat
  src_ip : List Nat
  dst_ip : List Nat
deriving DecidableEq, Repr

/-- `IPv4Layer.__init__`: stores the fields, parsing both address strings with
`inet_aton`; a malformed address makes the constructor raise (the `OSError`
from `inet_aton` propagates, so no object is produced). -/
def IPv4Layer.init (protocol : Nat) (src_ip dst_ip : String) (opts : IPv4Opts) :
    Except PyError IPv4Layer :=
  match inet_aton src_ip with
  | none => Except.error PyError.oserror
  | some sa =>
    match inet_aton dst_ip with
    | none => Except.error PyError.oserror
    | some da =>
      Except.ok
        { verihl := (4 <<< 4) + 5
          dscp_ecn := (0 <<< 6) + 0
          total_length := opts.total_length
          id := opts.id
          flags := opts.flags
          fragment_offset := opts.fragment_offset
          flags_fragment_offset := (opts.flags <<< 13) + opts.fragment_offset
          ttl := opts.ttl
          protocol := protocol
          checksum := opts.checksum
          src_ip := sa
          dst_ip := da }

/-- Big-endian bytes of a 16-bit value, as `struct.pack "!H"` emits them. -/
def pack_u16_bytes (v : Nat) : List Nat := [v / 256, v % 256]

/-- Bytes emitted by `struct.pack` format `4s`: the value truncated or
null-padded to 4 bytes (in this program the input always has exactly
4 bytes, coming from `inet_aton`). -/
def pack_bytes4 (b : List Nat) : List Nat :=
  b.take 4 ++ List.replicate (4 - b.length) 0

/-- `IPv4Layer.serialize`: one call `struct.pack("!BBHHHBBH4s4s", ...)`.
`struct.pack` range-checks every value against its field width and raises
`struct.error` if any does not fit; otherwise it emits the fields
back-to-back in network byte order. -/
def IPv4Layer.serialize (l : IPv4Layer) : Except PyError (List Nat) :=
  if l.verihl ≤ 255 ∧ l.dscp_ecn ≤ 255 ∧ l.total_length ≤ 65535 ∧ l.id ≤ 65535 ∧
      l.flags_fragment_offset ≤ 65535 ∧ l.ttl ≤ 255 ∧ l.protocol ≤ 255 ∧
      l.checksum ≤ 65535 then
    Except.ok ([l.verihl, l.dscp_ecn] ++ pack_u16_bytes l.total_length ++
      pack_u16_bytes l.id ++ pack_u16_bytes l.flags_fragment_offset ++
      [l.ttl, l.protocol] ++ pack_u16_bytes l.checksum ++
      pack_bytes4 l.src_ip ++ pack_bytes4 l.dst_ip)
  else Except.error PyError.structError

/-- Keyword options accepted by `UDPLayer.__init__`, with source defaults. -/
structure UDPOpts where
  length : Nat := 0
  checksum : Nat := 0
deriving DecidableEq, Repr

/-- Fields of a `UDPLayer` object. -/
structure UDPLayer where
  src_port : Nat
  dst_port : Nat
  length : Nat
  checksum : Nat
deriving DecidableEq, Repr

/-- `UDPLayer.__init__`: stores the ports and options verbatim; the source
performs no validation here, so construction never fails. -/
def UDPLayer.init (src_port dst_port : Nat) (opts : UDPOpts) : UDPLayer :=
  { src_port := src_port
    dst_port := dst_port
    length := opts.length
    checksum := opts.checksum }

/-- `UDPLayer.serialize`: one call `struct.pack("!HHHH", ...)`, range-checking
each value against 16 bits and raising `struct.error` on overflow. -/
def UDPLayer.serialize (l : UDPLayer) : Except PyError (List Nat) :=
  if l.src_port ≤ 65535 ∧ l.dst_port ≤ 65535 ∧ l.length ≤ 65535 ∧
      l.checksum ≤ 65535 then
    Except.ok (pack_u16_bytes l.src_port ++ pack_u16_bytes l.dst_port ++
      pack_u16_bytes l.length ++ pack_u16_bytes l.checksum)
  else Except.error PyError.structError

/-- A `Payload` object: an opaque byte sequence. -/
structure Payload where
  payload : List Nat
deriving DecidableEq, Repr

/-- `Payload.serialize`: `buf.write(self.payload)`, the raw bytes verbatim. -/
def Payload.serialize (p : Payload) : Except PyError (List Nat) :=
  Except.ok p.payload

/-- The closed set of `Layer` subclasses in the source. -/
inductive Layer where
  | ipv4 (l : IPv4Layer)
  | udp (l : UDPLayer)
  | payload (p : Payload)
deriving DecidableEq, Repr

/-- Dynamic dispatch of `set_length`.  IPv4: `total_length = 20 + payload`;
UDP: `length = 8 + payload`; Payload: no-op.  Mutation is modelled by
returning the updated layer. -/
def Layer.set_length : Layer → Nat → Layer
  | .ipv4 l, n => .ipv4 { l with total_length := 20 + n }
  | .udp l, n => .udp { l with length := 8 + n }
  | .payload p, _ => .payload p

/-- Dynamic dispatch of `get_total_length`. -/
def Layer.get_total_length : Layer → Nat
  | .ipv4 l => l.total_length
  | .udp l => l.length
  | .payload p => p.payload.length

/-- Dynamic dispatch of `get_payload_length` (Python integers may go
negative here, hence `Int`). -/
def Layer.get_payload_length : Layer → Int
  | .ipv4 l => (l.total_length : Int) - 20
  | .udp l => (l.length : Int) - 8
  | .payload p => (p.payload.length : Int)

/-- Dynamic dispatch of `has_checksum`. -/
def Layer.has_checksum : Layer → Bool
  | .ipv4 _ => false
  | .udp _ => true
  | .payload _ => false

/-- Dynamic dispatch of `serialize`. -/
def Layer.serialize : Layer → Except PyError (List Nat)
  | .ipv4 l => l.serialize
  | .udp l => l.serialize
  | .payload p => p.serialize

/-- Body of the backward loop in `serialize_layers` after its first
iteration: given the running `curr_payload` and the remaining layers (in
reverse order, i.e. walking toward the outermost layer), call `set_length`
on each layer and feed its new `get_total_length` to the next step. -/
def backProp : Nat → List Layer → List Layer
  | _, [] => []
  | curr, l :: rest =>
    l.set_length curr :: backProp (Layer.get_total_length (l.set_length curr)) rest

/-- The backward pass of `serialize_layers`: iterate `reversed(layers)`; the
first layer seen (the innermost) only initialises `curr_payload` from its
`get_total_length()` and is not touched; every later layer is updated by
`backProp`.  The result is the layer list (original order) after the loop's
mutations. -/
def backwardPass (layers : List Layer) : List Layer :=
  match layers.reverse with
  | [] => []
  | innermost :: rest =>
    (innermost :: backProp innermost.get_total_length rest).reverse

/-- The forward pass of `serialize_layers`: serialize each layer in order
into one buffer; a `struct.error` raised by any layer aborts the whole call
and no buffer is returned. -/
def serialize_all : List Layer → Except PyError (List Nat)
  | [] => Except.ok []
  | l :: rest =>
    match l.serialize with
    | Except.error e => Except.error e
    | Except.ok b =>
      match serialize_all rest with
      | Except.error e => Except.error e
      | Except.ok bs => Except.ok (b ++ bs)

/-- `serialize_layers(*layers)`: backward length-propagation pass, then
forward serialization pass returning the buffer contents.  With zero layers
neither loop runs and the empty buffer is returned. -/
def serialize_layers (layers : List Layer) : Except PyError (List Nat) :=
  serialize_all (backwardPass layers)

/-- Construct the IPv4/UDP/Payload stack the way `main.py` does (constructor
calls, a constructor failure propagating) and compose it. -/
def buildAndSerialize (protocol : Nat) (src_ip dst_ip : String) (opts : IPv4Opts)
    (src_port dst_port : Nat) (uopts : UDPOpts) (pl : List Nat) :
    Except PyError (List Nat) :=
  match IPv4Layer.init protocol src_ip dst_ip opts with
  | Except.error e => Except.error e
  | Except.ok ip4 =>
    serialize_layers [Layer.ipv4 ip4, Layer.udp (UDPLayer.init src_port dst_port uopts),
      Layer.payload ⟨pl⟩]

/-- Two successive `serialize` calls on the same layer instance appending to
the same buffer (no composer run in between). -/
def serializeTwice (l : Layer) : Except PyError (List Nat) :=
  match l.serialize with
  | Except.error e => Except.error e
  | Except.ok b1 =>
    match l.serialize with
    | Except.error e => Except.error e
    | Except.ok b2 => Except.ok (b1 ++ b2)

/-- Number of bytes a layer's `serialize` writes (0 when it raises). -/
def Layer.serialized_length (l : Layer) : Nat :=
  match l.serialize with
  | Except.ok b => b.length
  | Except.error _ => 0

/-- Read back the big-endian 16-bit value stored at byte offset `i` of a
buffer, as a parser of the documented wire format would. -/
def readBE16 (bs : List Nat) (i : Nat) : Option Nat :=
  match bs.get? i, bs.get? (i + 1) with
  | some hi, some lo => some (256 * hi + lo)
  | _, _ => none

/-! Spec-side definitions: the composition algorithm exactly as §4.5 of the
specification words it, to be compared with `serialize_layers` above. -/

/-- One step of the spec's backward walk: "call `set_length(current_payload_length)`
on it, then update `current_payload_length` to that layer's new
`get_total_length()`"; the updated layer is prepended, rebuilding the
sequence in its original order. -/
def specBackStep (st : Nat × List Layer) (l : Layer) : Nat × List Layer :=
  (Layer.get_total_length (l.set_length st.1), l.set_length st.1 :: st.2)

/-- The spec's backward pass: iterate the sequence in reverse; the running
payload length starts from the innermost layer's own `get_total_length()`
without calling `set_length` on it; every other layer goes through
`specBackStep`. -/
def specBackwardPass (layers : List Layer) : List Layer :=
  match layers.reverse with
  | [] => []
  | innermost :: rest =>
    (rest.foldl specBackStep (innermost.get_total_length, [innermost])).2

/-- One step of the spec's forward pass: "call `serialize` on each layer in
turn, appending to one shared buffer". -/
def specForwardStep (buf : List Nat) (l : Layer) : Except PyError (List Nat) :=
  match l.serialize with
  | Except.error e => Except.error e
  | Except.ok b => Except.ok (buf ++ b)

/-- The spec's forward pass: a fold over the layers in original outermost-first
order, threading the shared buffer. -/
def specForwardPass (layers : List Layer) : Except PyError (List Nat) :=
  layers.foldlM specForwardStep []

/-- The spec's composition algorithm: backward pass then forward pass. -/
def specSerializeLayers (layers : List Layer) : Except PyError (List Nat) :=
  specForwardPass (specBackwardPass layers)

/-! The end-to-end example packet of `main.py` and spec §8. -/

/-- ASCII bytes of the example payload `b"Hello World"`. -/
def helloWorldBytes : List Nat := "Hello World".data.map Char.toNat

/-- The IPv4 layer object `main.py` builds:
`IPv4Layer(17, src_ip="192.168.0.55", dst_ip="192.168.0.100", flags=IPV4_DONT_FRAGMENT)`. -/
def exampleIPv4 : IPv4Layer :=
  { verihl := 69
    dscp_ecn := 0
    total_length := 0
    id := 0
    flags := 2
    fragment_offset := 0
    flags_fragment_offset := 16384
    ttl := 64
    protocol := 17
    checksum := 0
    src_ip := [192, 168, 0, 55]
    dst_ip := [192, 168, 0, 100] }

/-- The UDP layer object `main.py` builds: `UDPLayer(src_port=5995, dst_port=9559)`. -/
def exampleUDP : UDPLayer := UDPLayer.init 5995 9559 {}

/-- The example layer stack, outermost first. -/
def exampleLayers : List Layer :=
  [Layer.ipv4 exampleIPv4, Layer.udp exampleUDP, Layer.payload ⟨helloWorldBytes⟩]

/-- The 39-byte wire image of the example packet: 20-byte IPv4 header
(total_length 39 at bytes 2–3), 8-byte UDP header (length 19 at bytes
24–25), then the 11 payload bytes. -/
def exampleBytes : List Nat :=
  [69, 0, 0, 39, 0, 0, 64, 0, 64, 17, 0, 0, 192, 168, 0, 55, 192, 168, 0, 100,
    23, 107, 37, 87, 0, 19, 0, 0] ++ helloWorldBytes

/-! Helper lemmas. -/

/-- Computing the backward pass on an IPv4/UDP/Payload stack: the UDP length
becomes 8 + L and the IPv4 total length 20 + (8 + L); the payload is
untouched. -/
theorem backwardPass_three (i : IPv4Layer) (u : UDPLayer) (pl : List Nat) :
    backwardPass [Layer.ipv4 i, Layer.udp u, Layer.payload ⟨pl⟩] =
      [Layer.ipv4 { i with total_length := 20 + (8 + pl.length) },
       Layer.udp { u with length := 8 + pl.length },
       Layer.payload ⟨pl⟩] := rfl

/-- The spec's backward fold and the source's backward loop body agree step
by step: folding `specBackStep` over the remaining reversed layers yields
exactly the `backProp` updates, re-reversed onto the accumulator. -/
theorem foldl_specBackStep (rest : List Layer) :
    ∀ curr acc, (rest.foldl specBackStep (curr, acc)).2 =
      (backProp curr rest).reverse ++ acc := by
  induction rest with
  | nil => intro curr acc; simp [backProp]
  | cons l rest ih =>
    intro curr acc
    simp only [List.foldl_cons, specBackStep, backProp]
    rw [ih]
    simp [List.append_assoc]

/-- The spec-worded backward pass computes the same updated layer list as the
source's backward loop. -/
theorem specBackwardPass_eq (layers : List Layer) :
    specBackwardPass layers = backwardPass layers := by
  unfold specBackwardPass backwardPass
  cases h : layers.reverse with
  | nil => rfl
  | cons innermost rest =>
    show (List.foldl specBackStep (innermost.get_total_length, [innermost]) rest).2 =
      (innermost :: backProp innermost.get_total_length rest).reverse
    rw [foldl_specBackStep]
    simp

/-- The spec's forward fold threading a shared buffer equals the source's
forward pass with the accumulated prefix prepended. -/
theorem foldlM_specForward (ls : List Layer) :
    ∀ acc, ls.foldlM specForwardStep acc =
      (serialize_all ls).map (fun bs => acc ++ bs) := by
  induction ls with
  | nil => intro acc; simp [serialize_all, Except.map, pure, Except.pure]
  | cons l rest ih =>
    intro acc
    cases hl : l.serialize with
    | error e =>
      simp [List.foldlM_cons, specForwardStep, hl, serialize_all, Except.map,
        Bind.bind, Except.bind]
    | ok b =>
      simp only [List.foldlM_cons, specForwardStep, hl, Bind.bind, Except.bind]
      rw [ih]
      cases hr : serialize_all rest with
      | error e => simp [serialize_all, hl, hr, Except.map]
      | ok bs => simp [serialize_all, hl, hr, Except.map, List.append_assoc]

/-- When the forward pass succeeds, the buffer's length is the sum of the
individual layers' serialized byte counts. -/
theorem serialize_all_length (ls : List Layer) :
    ∀ bs, serialize_all ls = Except.ok bs →
      bs.length = (ls.map Layer.serialized_length).sum := by
  induction ls with
  | nil =>
    intro bs h
    simp only [serialize_all] at h
    simp [← Except.ok.inj h]
  | cons l rest ih =>
    intro bs h
    simp only [serialize_all] at h
    cases hl : l.serialize with
    | error e => rw [hl] at h; exact absurd h (by simp)
    | ok b =>
      rw [hl] at h
      cases hr : serialize_all rest with
      | error e => rw [hr] at h; exact absurd h (by simp)
      | ok bs2 =>
        rw [hr] at h
        rw [← Except.ok.inj h]
        simp [Layer.serialized_length, hl, ih bs2 hr]

/-- A successful `inet_aton` always yields exactly four bytes. -/
theorem inet_aton_shape {s : String} {l : List Nat} (h : inet_aton s = some l) :
    ∃ a b c d, l = [a, b, c, d] := by
  unfold inet_aton at h
  split at h
  · split at h
    · exact ⟨_, _, _, _, (Option.some.inj h).symm⟩
    · exact absurd h (by simp)
  · exact absurd h (by simp)

/-- Inversion of a successful `IPv4Layer` construction: both address strings
parsed, and every field holds the constructor-supplied value. -/
theorem ipv4_init_ok {p : Nat} {s d : String} {o : IPv4Opts} {ip : IPv4Layer}
    (h : IPv4Layer.init p s d o = Except.ok ip) :
    ∃ sa da, inet_aton s = some sa ∧ inet_aton d = some da ∧
      ip = { verihl := (4 <<< 4) + 5, dscp_ecn := 0, total_length := o.total_length,
             id := o.id, flags := o.flags, fragment_offset := o.fragment_offset,
             flags_fragment_offset := (o.flags <<< 13) + o.fragment_offset,
             ttl := o.ttl, protocol := p, checksum := o.checksum,
             src_ip := sa, dst_ip := da } := by
  unfold IPv4Layer.init at h
  rcases hs : inet_aton s with _ | sa
  · rw [hs] at h; exact absurd h (by simp)
  · rw [hs] at h
    rcases hd : inet_aton d with _ | da
    · rw [hd] at h; exact absurd h (by simp)
    · rw [hd] at h
      exact ⟨sa, da, rfl, rfl, (Except.ok.inj h).symm⟩

/-- C1: composing an IPv4/UDP/Payload stack with an L-byte payload leaves the
UDP length field at 8 + L and the IPv4 total-length field at 28 + L (so L = 0
gives 8 and 28), and the §8 example composes to the documented 39-byte buffer:
IPv4 header in bytes 0–19 with total_length 39 at bytes 2–3, UDP header in
bytes 20–27 with length 19 at bytes 24–25, and the "Hello World" bytes at
28–38. -/
theorem c1_length_propagation (i : IPv4Layer) (u : UDPLayer) (pl : List Nat) :
    backwardPass [Layer.ipv4 i, Layer.udp u, Layer.payload ⟨pl⟩] =
      [Layer.ipv4 { i with total_length := 28 + pl.length },
       Layer.udp { u with length := 8 + pl.length },
       Layer.payload ⟨pl⟩] ∧
    IPv4Layer.init 17 "192.168.0.55" "192.168.0.100" { flags := IPV4_DONT_FRAGMENT } =
      Except.ok exampleIPv4 ∧
    serialize_layers exampleLayers = Except.ok exampleBytes ∧
    exampleBytes.length = 39 ∧
    readBE16 exampleBytes 2 = some 39 ∧
    readBE16 exampleBytes 24 = some 19 ∧
    exampleBytes.drop 28 = helloWorldBytes := by
  refine ⟨?_, by decide, by decide, by decide, by decide, by decide, by decide⟩
  rw [backwardPass_three]
  have h : 20 + (8 + pl.length) = 28 + pl.length := by omega
  rw [h]

/-- C2: on every non-empty layer sequence, `serialize_layers` computes exactly
the spec's two-pass algorithm — the backward walk that skips the innermost
layer, initialises the running payload length from its `get_total_length()`,
and for every other layer calls `set_length` then re-reads `get_total_length`,
followed by the forward serialization into one shared buffer. -/
theorem c2_two_pass_refinement (layers : List Layer) (_hne : layers ≠ []) :
    serialize_layers layers = specSerializeLayers layers := by
  unfold serialize_layers specSerializeLayers specForwardPass
  rw [specBackwardPass_eq, foldlM_specForward]
  cases serialize_all (backwardPass layers) <;> simp [Except.map]

theorem c2_witness :
    exampleLayers ≠ [] ∧ serialize_layers exampleLayers = specSerializeLayers exampleLayers :=
  ⟨by decide, c2_two_pass_refinement exampleLayers (by decide)⟩

/-- C3 counterexample: on the §8 example stack the buffer has 39 bytes but
the sum of the layers' post-composition `get_total_length()` values is
39 + 19 + 11 = 69, so the claimed equality fails. -/
theorem c3_counterexample :
    serialize_layers exampleLayers = Except.ok exampleBytes ∧
    exampleBytes.length = 39 ∧
    ((backwardPass exampleLayers).map Layer.get_total_length).sum = 69 ∧
    exampleBytes.length ≠ ((backwardPass exampleLayers).map Layer.get_total_length).sum := by
  decide

/-- C3 amended: for every layer sequence on which `serialize_layers` succeeds,
the returned buffer's length equals the sum over the composed layers of the
number of bytes each layer's `serialize` writes (its serialized size), not of
`get_total_length()`. -/
theorem c3_buffer_length_sum (layers : List Layer) (bs : List Nat)
    (h : serialize_layers layers = Except.ok bs) :
    bs.length = ((backwardPass layers).map Layer.serialized_length).sum :=
  serialize_all_length (backwardPass layers) bs h

theorem c3_witness :
    serialize_layers exampleLayers = Except.ok exampleBytes ∧
    exampleBytes.length = ((backwardPass exampleLayers).map Layer.serialized_length).sum :=
  ⟨by decide, c3_buffer_length_sum exampleLayers exampleBytes (by decide)⟩

/-- C6 counterexample: composing zero layers does return a buffer (the empty
one) instead of failing, refuting "it never returns a buffer for an empty
sequence". -/
theorem c6_counterexample : ∃ bs, serialize_layers [] = Except.ok bs := ⟨[], rfl⟩

/-- C6 amended: invoking the composer with zero layers raises nothing and
returns the empty buffer; the code has no empty-sequence check. -/
theorem c6_empty_returns_empty : serialize_layers [] = Except.ok [] := rfl

/-- C7 counterexample: constructing a UDPLayer with source port 70000 (not a
16-bit value) succeeds, storing the port verbatim with no error; the overflow
is only caught later, when `serialize` calls `struct.pack` and it raises. -/
theorem c7_counterexample :
    UDPLayer.init 70000 9559 {} =
      { src_port := 70000, dst_port := 9559, length := 0, checksum := 0 } ∧
    (UDPLayer.init 70000 9559 {}).serialize = Except.error PyError.structError := by
  decide

/-- C7 amended: a source or destination port that does not fit in 16 bits is
stored unvalidated by the constructor (construction cannot fail), and the
overflow is detected only at serialization time, where `struct.pack` raises
`struct.error`. -/
theorem c7_overflow_detected_at_serialize (sp dp : Nat) (w : UDPOpts)
    (h : 65535 < sp ∨ 65535 < dp) :
    (UDPLayer.init sp dp w).src_port = sp ∧
    (UDPLayer.init sp dp w).dst_port = dp ∧
    (UDPLayer.init sp dp w).serialize = Except.error PyError.structError := by
  refine ⟨rfl, rfl, ?_⟩
  show (if _ ∧ _ ∧ _ ∧ _ then _ else _) = _
  refine if_neg (fun hc => ?_)
  cases h with
  | inl h => exact Nat.not_le.mpr h hc.1
  | inr h => exact Nat.not_le.mpr h hc.2.1

theorem c7_witness :
    ((65535 < 70000 ∨ 65535 < 9559) ∧
      ((UDPLayer.init 70000 9559 {}).src_port = 70000 ∧
        (UDPLayer.init 70000 9559 {}).dst_port = 9559 ∧
        (UDPLayer.init 70000 9559 {}).serialize = Except.error PyError.structError)) ∧
    ((65535 < 5995 ∨ 65535 < 70000) ∧
      ((UDPLayer.init 5995 70000 {}).src_port = 5995 ∧
        (UDPLayer.init 5995 70000 {}).dst_port = 70000 ∧
        (UDPLayer.init 5995 70000 {}).serialize = Except.error PyError.structError)) :=
  ⟨⟨Or.inl (by decide), c7_overflow_detected_at_serialize 70000 9559 {} (Or.inl (by decide))⟩,
   ⟨Or.inr (by decide), c7_overflow_detected_at_serialize 5995 70000 {} (Or.inr (by decide))⟩⟩

/-- C8: constructing an IPv4Layer whose source address string `inet_aton`
cannot parse fails inside the constructor with the parse error (the `OSError`
raised by `inet_aton`, the failure the spec names AddressParseError); no
layer object is produced. -/
theorem c8_bad_address_constructor_fails (p : Nat) (s d : String) (o : IPv4Opts)
    (h : inet_aton s = none) :
    IPv4Layer.init p s d o = Except.error PyError.oserror := by
  unfold IPv4Layer.init
  rw [h]

theorem c8_witness :
    inet_aton "999.1.1.1" = none ∧
    IPv4Layer.init 17 "999.1.1.1" "192.168.0.100" {} = Except.error PyError.oserror :=
  ⟨by decide, c8_bad_address_constructor_fails 17 "999.1.1.1" "192.168.0.100" {} (by decide)⟩

/-- C9: serializing the same fully-configured layer twice in succession into
the same buffer (no composer run in between) appends the same bytes both
times. -/
theorem c9_serialize_idempotent (l : Layer) (b : List Nat)
    (h : l.serialize = Except.ok b) :
    serializeTwice l = Except.ok (b ++ b) := by
  unfold serializeTwice
  rw [h]

theorem c9_witness :
    (Layer.udp exampleUDP).serialize = Except.ok [23, 107, 37, 87, 0, 0, 0, 0] ∧
    serializeTwice (Layer.udp exampleUDP) =
      Except.ok ([23, 107, 37, 87, 0, 0, 0, 0] ++ [23, 107, 37, 87, 0, 0, 0, 0]) :=
  ⟨by decide, c9_serialize_idempotent (Layer.udp exampleUDP) _ (by decide)⟩

/-- C5: on an IPv4/UDP/Payload stack, a composed length that does not fit a
16-bit wire field (IPv4 total length above 65535, or a payload pushing the
UDP length field above 65535) makes the composition fail with the
`struct.pack` range error instead of truncating or wrapping; no buffer is
returned. -/
theorem c5_length_overflow_fails (i : IPv4Layer) (u : UDPLayer) (pl : List Nat)
    (h : 65535 < 28 + pl.length ∨ 65535 < 8 + pl.length) :
    serialize_layers [Layer.ipv4 i, Layer.udp u, Layer.payload ⟨pl⟩] =
      Except.error PyError.structError := by
  have hov : 65535 < 20 + (8 + pl.length) := by omega
  unfold serialize_layers
  rw [backwardPass_three]
  have hser : (Layer.ipv4 { i with total_length := 20 + (8 + pl.length) }).serialize =
      Except.error PyError.structError := by
    show (if _ ∧ _ ∧ _ ∧ _ ∧ _ ∧ _ ∧ _ ∧ _ then _ else _) = _
    exact if_neg (fun hc => Nat.not_le.mpr hov hc.2.2.1)
  simp [serialize_all, hser]

theorem c5_witness :
    (65535 < 28 + (List.replicate 65600 0).length ∨
      65535 < 8 + (List.replicate 65600 0).length) ∧
    serialize_layers [Layer.ipv4 exampleIPv4, Layer.udp exampleUDP,
      Layer.payload ⟨List.replicate 65600 0⟩] = Except.error PyError.structError :=
  ⟨Or.inl (by simp only [List.length_replicate]; omega),
    c5_length_overflow_fails exampleIPv4 exampleUDP (List.replicate 65600 0)
      (Or.inl (by simp only [List.length_replicate]; omega))⟩

/-- C4: whenever an IPv4/UDP/Payload composition succeeds, reading the buffer
back at the documented offsets recovers the constructor-supplied inputs: the
protocol number at byte 9, the source and destination addresses (as parsed
from the supplied strings) at bytes 12–15 and 16–19, the big-endian ports at
bytes 20–21 and 22–23, and the payload bytes from byte 28 on. -/
theorem c4_round_trip (p : Nat) (s d : String) (o : IPv4Opts) (sp dp : Nat)
    (w : UDPOpts) (pl : List Nat) (ip4 : IPv4Layer) (bs : List Nat)
    (hinit : IPv4Layer.init p s d o = Except.ok ip4)
    (hser : serialize_layers [Layer.ipv4 ip4, Layer.udp (UDPLayer.init sp dp w),
      Layer.payload ⟨pl⟩] = Except.ok bs) :
    bs.get? 9 = some p ∧
    inet_aton s = some ((bs.drop 12).take 4) ∧
    inet_aton d = some ((bs.drop 16).take 4) ∧
    readBE16 bs 20 = some sp ∧
    readBE16 bs 22 = some dp ∧
    bs.drop 28 = pl := by
  obtain ⟨sa, da, hs, hd, rfl⟩ := ipv4_init_ok hinit
  obtain ⟨a0, a1, a2, a3, rfl⟩ := inet_aton_shape hs
  obtain ⟨b0, b1, b2, b3, rfl⟩ := inet_aton_shape hd
  unfold serialize_layers at hser
  rw [backwardPass_three] at hser
  simp only [serialize_all, Layer.serialize, Payload.serialize, List.append_nil] at hser
  rcases hI : IPv4Layer.serialize _ with e | bI
  · rw [hI] at hser; exact absurd hser (by simp)
  rw [hI] at hser
  rcases hU : UDPLayer.serialize _ with e | bU
  · rw [hU] at hser; exact absurd hser (by simp)
  rw [hU] at hser
  rw [IPv4Layer.serialize] at hI
  split at hI
  swap
  · exact absurd hI (by simp)
  rw [UDPLayer.serialize] at hU
  split at hU
  swap
  · exact absurd hU (by simp)
  obtain rfl := Except.ok.inj hI
  obtain rfl := Except.ok.inj hU
  obtain rfl := Except.ok.inj hser
  refine ⟨?_, ?_, ?_, ?_, ?_, ?_⟩
  · rfl
  · rw [hs]; rfl
  · rw [hd]; rfl
  · exact congrArg some (Nat.div_add_mod sp 256)
  · exact congrArg some (Nat.div_add_mod dp 256)
  · rfl

theorem c4_witness :
    IPv4Layer.init 17 "192.168.0.55" "192.168.0.100" { flags := IPV4_DONT_FRAGMENT } =
      Except.ok exampleIPv4 ∧
    serialize_layers [Layer.ipv4 exampleIPv4, Layer.udp (UDPLayer.init 5995 9559 {}),
      Layer.payload ⟨helloWorldBytes⟩] = Except.ok exampleBytes ∧
    (exampleBytes.get? 9 = some 17 ∧
      inet_aton "192.168.0.55" = some ((exampleBytes.drop 12).take 4) ∧
      inet_aton "192.168.0.100" = some ((exampleBytes.drop 16).take 4) ∧
      readBE16 exampleBytes 20 = some 5995 ∧
      readBE16 exampleBytes 22 = some 9559 ∧
      exampleBytes.drop 28 = helloWorldBytes) :=
  ⟨by decide, by decide,
    c4_round_trip 17 "192.168.0.55" "192.168.0.100" { flags := IPV4_DONT_FRAGMENT }
      5995 9559 {} helloWorldBytes exampleIPv4 exampleBytes (by decide) (by decide)⟩

/-- C10: the composed bytes of an IPv4/UDP/Payload stack do not depend on the
caller-supplied initial `total_length` option of the IPv4 layer or `length`
option of the UDP layer: two builds differing only in those two options
produce identical results, because the backward pass overwrites both fields
before anything is serialized. -/
theorem c10_initial_length_options_ignored (p : Nat) (s d : String)
    (id flags fo ttl ck tl1 tl2 sp dp uck ul1 ul2 : Nat) (pl : List Nat) :
    buildAndSerialize p s d ⟨tl1, id, flags, fo, ttl, ck⟩ sp dp ⟨ul1, uck⟩ pl =
    buildAndSerialize p s d ⟨tl2, id, flags, fo, ttl, ck⟩ sp dp ⟨ul2, uck⟩ pl := by
  unfold buildAndSerialize IPv4Layer.init
  cases hs : inet_aton s with
  | none => rfl
  | some sa =>
    cases hd : inet_aton d with
    | none => rfl
    | some da =>
      show serialize_layers _ = serialize_layers _
      unfold serialize_layers
      rw [backwardPass_three, backwardPass_three]
      rfl
